import Mathlib

/-!
Verification development for the Power Pet Door simulator
(`src/powerpetdoor/simulator/`).  The Python source is shallowly embedded:
pure functions become Lean functions over explicit state values, the
asynchronous motion routines become fuel-indexed trace-producing functions
(each broadcast door status is recorded in an output list), and floating
point arithmetic on battery and hold-time values is modelled over `ℚ`
with Python's `int()` truncation made explicit.

Pieces of the repository that are referenced by `server.py` but whose
definitions are not part of the provided sources (the `DoorSimulatorProtocol`
wire handlers of `protocol.py`, the `BatteryConfig` dataclass and the
`is_sensor_blocking_close` method of the full `state.py`) are modelled from
the specification; each such definition carries a doc comment saying so.
-/

namespace PowerPetDoor

/-- Door motion phase, mirroring the `DOOR_STATE_*` constants. -/
inductive DoorStatus where
  | closed
  | rising
  | slowing
  | holding
  | keepup
  | closingTopOpen
  | closingMidOpen
deriving DecidableEq, Repr

/-- Which sensor a trigger or schedule query refers to
(the `sensor: str` arguments, always "inside" or "outside"). -/
inductive Sensor where
  | inside
  | outside
deriving DecidableEq, Repr

/-- Embedding of the `Schedule` dataclass of `simulator/state.py`.
`days_of_week` is the seven-element [Sun..Sat] list of 0/1 ints. -/
structure Schedule where
  index : Int
  enabled : Bool
  days_of_week : List Nat
  inside : Bool
  outside : Bool
  start_hour : Int
  start_min : Int
  end_hour : Int
  end_min : Int
deriving DecidableEq, Repr

/-- Embedding of `Schedule.is_day_active`: the schedule must be enabled and
the day mask entry at `(weekday + 1) % 7` (Python Mon=0 weekday converted to
the protocol's Sun=0 indexing) must be nonzero. -/
def Schedule.is_day_active (s : Schedule) (weekday : Nat) : Bool :=
  s.enabled && (s.days_of_week.getD ((weekday + 1) % 7) 0 ≠ 0)

/-- Embedding of `Schedule.is_sensor_allowed`: sensor applicability flag,
day mask, and the [start, end) window with midnight wrap-around. -/
def Schedule.is_sensor_allowed (s : Schedule) (sensor : Sensor)
    (hour minute : Int) (weekday : Nat) : Bool :=
  if sensor = Sensor.inside ∧ ¬ s.inside then false
  else if sensor = Sensor.outside ∧ ¬ s.outside then false
  else if ¬ s.is_day_active weekday then false
  else
    let current_minutes := hour * 60 + minute
    let startM := s.start_hour * 60 + s.start_min
    let endM := s.end_hour * 60 + s.end_min
    if startM ≤ endM then
      decide (startM ≤ current_minutes ∧ current_minutes < endM)
    else
      decide (current_minutes ≥ startM ∨ current_minutes < endM)

/-- A `\x7b"hour": H, "min": M\x7d` time object on the wire; absent keys are
modelled with `Option`. -/
structure TimeDict where
  hour : Option Int
  min : Option Int
deriving DecidableEq, Repr

/-- The `enabled` wire field may be a string ("1"/"0") or a boolean. -/
inductive EnabledVal where
  | str (v : String)
  | boolv (v : Bool)
deriving DecidableEq, Repr

/-- The `daysOfWeek` wire field may be a 7-element list or a legacy bitmask. -/
inductive DaysVal where
  | lst (v : List Nat)
  | mask (v : Nat)
deriving DecidableEq, Repr

/-- Protocol dict for one schedule entry, with `Option` for possibly-absent
keys, exactly the keys `Schedule.to_dict` writes and `Schedule.from_dict`
reads. -/
structure SchedDict where
  index : Option Int
  enabled : Option EnabledVal
  daysOfWeek : Option DaysVal
  inside : Bool
  outside : Bool
  inStartTime : Option TimeDict
  inEndTime : Option TimeDict
  outStartTime : Option TimeDict
  outEndTime : Option TimeDict
deriving DecidableEq, Repr

/-- Embedding of `Schedule.to_dict`: time fields are the schedule's times for
each selected sensor and `\x7b"hour": 0, "min": 0\x7d` for an unselected one. -/
def Schedule.to_dict (s : Schedule) : SchedDict :=
  { index := some s.index
    enabled := some (EnabledVal.str (if s.enabled then "1" else "0"))
    daysOfWeek := some (DaysVal.lst s.days_of_week)
    inside := s.inside
    outside := s.outside
    inStartTime := some (if s.inside then ⟨some s.start_hour, some s.start_min⟩
                         else ⟨some 0, some 0⟩)
    inEndTime := some (if s.inside then ⟨some s.end_hour, some s.end_min⟩
                       else ⟨some 0, some 0⟩)
    outStartTime := some (if s.outside then ⟨some s.start_hour, some s.start_min⟩
                          else ⟨some 0, some 0⟩)
    outEndTime := some (if s.outside then ⟨some s.end_hour, some s.end_min⟩
                        else ⟨some 0, some 0⟩) }

/-- Embedding of `Schedule.from_dict`: reads the times from the prefix of the
first selected sensor (inside before outside), normalizes a legacy bitmask
into a 7-element 0/1 list, and applies the source's defaults for absent
keys. -/
def Schedule.from_dict (d : SchedDict) : Schedule :=
  let start : TimeDict :=
    if d.inside then d.inStartTime.getD ⟨none, none⟩
    else if d.outside then d.outStartTime.getD ⟨none, none⟩
    else ⟨none, none⟩
  let endT : TimeDict :=
    if d.inside then d.inEndTime.getD ⟨none, none⟩
    else if d.outside then d.outEndTime.getD ⟨none, none⟩
    else ⟨none, none⟩
  let days : List Nat :=
    match d.daysOfWeek with
    | none => [1, 1, 1, 1, 1, 1, 1]
    | some (DaysVal.lst l) => l
    | some (DaysVal.mask b) => (List.range 7).map (fun i => (b >>> i) &&& 1)
  let enabled : Bool :=
    match d.enabled with
    | some (EnabledVal.str v) => v == "1"
    | some (EnabledVal.boolv v) => v
    | none => true
  { index := d.index.getD 0
    enabled := enabled
    days_of_week := days
    inside := d.inside
    outside := d.outside
    start_hour := start.hour.getD 6
    start_min := start.min.getD 0
    end_hour := endT.hour.getD 22
    end_min := endT.min.getD 0 }

/-- Modelled from the spec: the `BatteryConfig` dataclass (referenced by
`server.py` and re-exported from `simulator/__init__.py` but not among the
provided sources) holds `charge_rate` (%/min ≥ 0), `discharge_rate`
(%/min ≥ 0) and `update_interval` (seconds); float values are taken in `ℚ`. -/
structure BatteryConfig where
  charge_rate : ℚ
  discharge_rate : ℚ
  update_interval : ℚ
deriving DecidableEq, Repr

/-- Embedding of the `DoorSimulatorState` dataclass (the fields the verified
operations touch).  `inside_sensor_active` / `outside_sensor_active` are the
sensor detection flags mutated by `server.py`; `schedules` is the
index-keyed schedule mapping, kept as an association list with unique keys;
`hold_time` is seconds as a rational (Python stores an int or float). -/
structure DoorSimulatorState where
  door_status : DoorStatus
  power : Bool
  inside : Bool
  outside : Bool
  auto : Bool
  autoretract : Bool
  safety_lock : Bool
  cmd_lockout : Bool
  inside_sensor_active : Bool
  outside_sensor_active : Bool
  battery_percent : Int
  battery_present : Bool
  ac_present : Bool
  low_battery : Bool
  battery_config : BatteryConfig
  timezone : String
  hold_time : ℚ
  sensor_trigger_voltage : Int
  sleep_sensor_trigger_voltage : Int
  total_open_cycles : Nat
  total_auto_retracts : Nat
  schedules : List (Int × Schedule)
deriving DecidableEq, Repr

namespace DoorSimulatorState

/-- Modelled from the spec: `DoorSimulatorState.is_sensor_blocking_close`
(present in the full `state.py`, not among the provided sources).  A sensor
blocks the close iff it is active, its enable flag is set, for the outside
sensor `safety_lock` is off, and `cmd_lockout` is off (spec §4.4, confirmed
by `tests/simulator/test_state.py`). -/
def is_sensor_blocking_close (s : DoorSimulatorState) : Bool :=
  if s.cmd_lockout then false
  else (s.inside_sensor_active && s.inside)
    || (s.outside_sensor_active && s.outside && !s.safety_lock)

/-- Embedding of `DoorSimulatorState.is_sensor_allowed_by_schedule`.
The wall-clock localized to the configured timezone
(`datetime.now(ZoneInfo(timezone))`) is abstracted into the explicit
`hour`, `minute` and Python `weekday` (Mon=0) arguments. -/
def is_sensor_allowed_by_schedule (s : DoorSimulatorState) (sensor : Sensor)
    (hour minute : Int) (weekday : Nat) : Bool :=
  if ¬ s.auto then true
  else if s.schedules = [] then true
  else (s.schedules.map Prod.snd).any
    (fun sched => sched.is_sensor_allowed sensor hour minute weekday)

end DoorSimulatorState

/-- The settings dict produced by `DoorSimulatorState.get_settings`;
boolean settings become "1"/"0" strings and `holdTime` is the raw stored
value (seconds).  The IANA→POSIX timezone rewriting applies only once the
`tz_utils` cache is initialized; the embedding models the simulator before
that point, so `tz` is the stored timezone string. -/
structure SettingsDict where
  power : String
  inside : String
  outside : String
  timersEnabled : String
  outsideSensorSafetyLock : String
  cmdLockout : String
  autoRetract : String
  tz : String
  holdOpenTime : ℚ
  sensorTriggerVoltage : Int
  sleepSensorTriggerVoltage : Int
deriving DecidableEq, Repr

/-- Embedding of `DoorSimulatorState.get_settings`. -/
def DoorSimulatorState.get_settings (s : DoorSimulatorState) : SettingsDict :=
  { power := if s.power then "1" else "0"
    inside := if s.inside then "1" else "0"
    outside := if s.outside then "1" else "0"
    timersEnabled := if s.auto then "1" else "0"
    outsideSensorSafetyLock := if s.safety_lock then "1" else "0"
    cmdLockout := if s.cmd_lockout then "1" else "0"
    autoRetract := if s.autoretract then "1" else "0"
    tz := s.timezone
    holdOpenTime := s.hold_time
    sensorTriggerVoltage := s.sensor_trigger_voltage
    sleepSensorTriggerVoltage := s.sleep_sensor_trigger_voltage }

/-- Python's `int()` on a rational: truncation toward zero. -/
def pyInt (q : ℚ) : Int :=
  if q < 0 then -⌊-q⌋ else ⌊q⌋

/-- Embedding of `DoorSimulator.set_battery`: clamp to [0, 100] and store;
the second component tells whether the dedicated low-battery notification is
sent (downward crossing of the threshold 20 with `low_battery` enabled,
exactly the guard in `set_battery` plus `_send_low_battery_notification`). -/
def set_battery (p : Int) (s : DoorSimulatorState) :
    DoorSimulatorState × Bool :=
  let old := s.battery_percent
  let s1 := { s with battery_percent := max 0 (min 100 p) }
  (s1, decide (old > 20 ∧ p ≤ 20) && s.low_battery)

/-- Embedding of one iteration of `DoorSimulator._battery_simulation_loop`
after the `update_interval` sleep.  Returns the updated state, whether a
battery broadcast is emitted, and whether the dedicated low-battery
notification is emitted. -/
def battery_simulation_tick (s : DoorSimulatorState) :
    DoorSimulatorState × Bool × Bool :=
  if ¬ s.battery_present then (s, false, false)
  else
    let config := s.battery_config
    let old := s.battery_percent
    if s.ac_present ∧ config.charge_rate > 0 then
      let delta := config.charge_rate * (config.update_interval / 60)
      let new_percent : ℚ := min 100 ((old : ℚ) + delta)
      if new_percent ≠ (old : ℚ) then
        ({ s with battery_percent := pyInt new_percent }, true, false)
      else (s, false, false)
    else if ¬ s.ac_present ∧ config.discharge_rate > 0 then
      let delta := config.discharge_rate * (config.update_interval / 60)
      let new_percent : ℚ := max 0 ((old : ℚ) - delta)
      if pyInt new_percent ≠ old then
        let s1 := { s with battery_percent := pyInt new_percent }
        (s1, true,
          decide (old > 20 ∧ s1.battery_percent ≤ 20) && s.low_battery)
      else (s, false, false)
    else (s, false, false)

/-- Embedding of `DoorSimulator.set_power`: assigns the power flag. -/
def set_power (enabled : Bool) (s : DoorSimulatorState) : DoorSimulatorState :=
  { s with power := enabled }

/-- Embedding of `DoorSimulator.activate_sensor`.  `durationZero` selects
toggle mode (`duration == 0`); in pulse mode the flag is set and a delayed
deactivation is scheduled (the delayed clearing is a separate event and not
part of this synchronous step). -/
def activate_sensor (sensor : Sensor) (durationZero : Bool)
    (s : DoorSimulatorState) : DoorSimulatorState :=
  match sensor with
  | Sensor.inside =>
      let s1 := { s with outside_sensor_active := false }
      if durationZero then
        { s1 with inside_sensor_active := !s1.inside_sensor_active }
      else { s1 with inside_sensor_active := true }
  | Sensor.outside =>
      let s1 := { s with inside_sensor_active := false }
      if durationZero then
        { s1 with outside_sensor_active := !s1.outside_sensor_active }
      else { s1 with outside_sensor_active := true }

/-- Embedding of the client-less branch of `DoorSimulator.simulate_obstruction`:
it sets `inside_sensor_active` (and nothing else). -/
def simulate_obstruction (s : DoorSimulatorState) : DoorSimulatorState :=
  { s with inside_sensor_active := true }

/-- Embedding of `DoorSimulator.set_pet_in_doorway`. -/
def set_pet_in_doorway (present : Bool) (s : DoorSimulatorState) :
    DoorSimulatorState :=
  if present then
    { s with inside_sensor_active := true, outside_sensor_active := false }
  else { s with inside_sensor_active := false }

/-- Embedding of `DoorSimulator._direct_trigger_sensor`'s state effect: the
gating checks read the state and either silently drop the trigger or spawn
an open cycle, but the function itself mutates nothing; the returned `Bool`
says whether an open cycle is launched.  The schedule check is taken at the
explicit local time arguments. -/
def direct_trigger_sensor (sensor : Sensor) (hour minute : Int)
    (weekday : Nat) (s : DoorSimulatorState) : DoorSimulatorState × Bool :=
  if ¬ s.power then (s, false)
  else if s.cmd_lockout then (s, false)
  else if sensor = Sensor.inside ∧ ¬ s.inside then (s, false)
  else if sensor = Sensor.outside ∧ ¬ s.outside then (s, false)
  else if sensor = Sensor.outside ∧ s.safety_lock then (s, false)
  else if ¬ s.is_sensor_allowed_by_schedule sensor hour minute weekday then
    (s, false)
  else (s, true)

/-- Result of a control-channel command (`CommandResult` in
`commands/base.py`), reduced to the success flag and message. -/
structure CommandResult where
  success : Bool
  message : String
deriving DecidableEq, Repr

/-- Embedding of `DoorSimulator.add_schedule`: insert or replace by the
schedule's own index key. -/
def add_schedule (sched : Schedule) (s : DoorSimulatorState) :
    DoorSimulatorState :=
  let rest := s.schedules.filter (fun p => p.1 ≠ sched.index)
  { s with schedules := (sched.index, sched) :: rest }

/-- Embedding of `DoorSimulator.remove_schedule`; the `Bool` tells whether a
deletion broadcast is sent (only when the index was present). -/
def remove_schedule (index : Int) (s : DoorSimulatorState) :
    DoorSimulatorState × Bool :=
  if (s.schedules.lookup index).isSome then
    ({ s with schedules := s.schedules.filter (fun p => p.1 ≠ index) }, true)
  else (s, false)

/-- Embedding of `ScheduleCommandsMixin.schedule_delete` (the control-channel
`schedule delete` command): a missing index yields a failure result and no
mutation. -/
def schedule_delete (index : Int) (s : DoorSimulatorState) :
    DoorSimulatorState × CommandResult :=
  if (s.schedules.lookup index).isNone then
    (s, ⟨false, "Schedule #" ++ toString index ++ " not found"⟩)
  else
    ((remove_schedule index s).1,
      ⟨true, "Deleted schedule #" ++ toString index⟩)

/-- Modelled from the spec: the `SET_HOLD_TIME` handler of
`DoorSimulatorProtocol` (`protocol.py`, not among the provided sources)
converts the wire centisecond integer to seconds and stores it
("Internal state stores 7.5 seconds", §8.2; confirmed by
`tests/simulator/test_protocol.py`). -/
def set_hold_time_cmd (h : Nat) (s : DoorSimulatorState) :
    DoorSimulatorState :=
  { s with hold_time := (h : ℚ) / 100 }

/-- Modelled from the spec: the `GET_HOLD_TIME` reply of
`DoorSimulatorProtocol` (`protocol.py`, not among the provided sources)
reports the stored seconds back as integer centiseconds. -/
def get_hold_time_cmd (s : DoorSimulatorState) : Int :=
  pyInt (s.hold_time * 100)

/-- Embedding of the conversion in `DoorSimulator.broadcast_hold_time`:
`int(self.state.hold_time * 100)` centiseconds. -/
def broadcast_hold_time_value (s : DoorSimulatorState) : Int :=
  pyInt (s.hold_time * 100)

/-- Modelled from the spec: the `GET_SETTINGS` wire reply (`protocol.py`,
not among the provided sources) reports the hold-time field in centiseconds
("GET_SETTINGS reports the same centisecond value for hold time", §8.2;
confirmed by `tests/simulator/test_protocol.py`). -/
def wire_settings_hold_time (s : DoorSimulatorState) : Int :=
  pyInt (s.hold_time * 100)

/-- State reached by `_check_sensor_retract` just before it re-opens the
door: both sensor-active flags cleared and `total_auto_retracts`
incremented. -/
def retract_clear (s : DoorSimulatorState) : DoorSimulatorState :=
  { s with inside_sensor_active := false
           outside_sensor_active := false
           total_auto_retracts := s.total_auto_retracts + 1 }

mutual

/-- Embedding of `DoorSimulator._direct_open_door`.  The returned list is
the sequence of door statuses broadcast by the run, in order; the state
threads through every mutation the coroutine performs.  The sensor flags are
those of the state being threaded (no concurrent mutation), so the
`HOLDING` poll loop ends exactly when `is_sensor_blocking_close` is false
and diverges otherwise; divergence and fuel exhaustion of the
open/close/retract recursion are both rendered as `none`. -/
def direct_open_door : Nat → Bool → DoorSimulatorState →
    Option (DoorSimulatorState × List DoorStatus)
  | 0, _, _ => none
  | Nat.succ n, hold, s =>
    let current_status := s.door_status
    if current_status = DoorStatus.holding ∨
       current_status = DoorStatus.keepup then some (s, [])
    else if current_status = DoorStatus.rising ∨
            current_status = DoorStatus.slowing then some (s, [])
    else
      let startSkip : DoorStatus × Bool :=
        if current_status = DoorStatus.closingTopOpen then
          (DoorStatus.slowing, true)
        else (DoorStatus.rising, false)
      let s1 := { s with door_status := startSkip.1 }
      let tr1 := [startSkip.1]
      let s2 := if startSkip.2 then s1
                else { s1 with door_status := DoorStatus.slowing }
      let tr2 := if startSkip.2 then tr1 else tr1 ++ [DoorStatus.slowing]
      if hold then
        some ({ s2 with door_status := DoorStatus.keepup },
              tr2 ++ [DoorStatus.keepup])
      else
        let s3 := { s2 with door_status := DoorStatus.holding }
        let tr3 := tr2 ++ [DoorStatus.holding]
        if s3.is_sensor_blocking_close then none
        else
          match direct_close_door n DoorStatus.closingTopOpen false s3 with
          | none => none
          | some (s4, tr4) => some (s4, tr3 ++ tr4)

/-- Embedding of `DoorSimulator._direct_close_door` (same conventions as
`direct_open_door`).  The two `_check_sensor_retract` calls after the top
and mid phase timers are inlined; `check_sensor_retract` below restates
them as a standalone function. -/
def direct_close_door : Nat → DoorStatus → Bool → DoorSimulatorState →
    Option (DoorSimulatorState × List DoorStatus)
  | 0, _, _, _ => none
  | Nat.succ n, start_state0, skip_top0, s =>
    let current_status := s.door_status
    if current_status = DoorStatus.closed then some (s, [])
    else if current_status = DoorStatus.closingTopOpen ∨
            current_status = DoorStatus.closingMidOpen then some (s, [])
    else
      let ss : DoorStatus × Bool :=
        if start_state0 = DoorStatus.closingTopOpen ∧ ¬ skip_top0 then
          if current_status = DoorStatus.rising then
            (DoorStatus.closingMidOpen, true)
          else if current_status = DoorStatus.slowing then
            (DoorStatus.closingTopOpen, false)
          else (start_state0, skip_top0)
        else (start_state0, skip_top0)
      let s1 := { s with door_status := ss.1 }
      let tr1 := [ss.1]
      if ss.2 then
        if s1.is_sensor_blocking_close && s1.autoretract then
          match direct_open_door n false (retract_clear s1) with
          | none => none
          | some (s2, tr2) => some (s2, tr1 ++ tr2)
        else
          let s3 := { s1 with door_status := DoorStatus.closed }
          some ({ s3 with total_open_cycles := s3.total_open_cycles + 1 },
                tr1 ++ [DoorStatus.closed])
      else
        if s1.is_sensor_blocking_close && s1.autoretract then
          match direct_open_door n false (retract_clear s1) with
          | none => none
          | some (s2, tr2) => some (s2, tr1 ++ tr2)
        else
          let s3 := { s1 with door_status := DoorStatus.closingMidOpen }
          let tr3 := tr1 ++ [DoorStatus.closingMidOpen]
          if s3.is_sensor_blocking_close && s3.autoretract then
            match direct_open_door n false (retract_clear s3) with
            | none => none
            | some (s4, tr4) => some (s4, tr3 ++ tr4)
          else
            let s5 := { s3 with door_status := DoorStatus.closed }
            some ({ s5 with total_open_cycles := s5.total_open_cycles + 1 },
                  tr3 ++ [DoorStatus.closed])

end

/-- Embedding of `DoorSimulator._check_sensor_retract`: if a sensor blocks
the close and `autoretract` is on, clear both sensor flags, bump
`total_auto_retracts` and reverse into `_direct_open_door(hold=False)`;
the `Bool` is the function's return value (whether the close was aborted). -/
def check_sensor_retract (n : Nat) (s : DoorSimulatorState) :
    Option (Bool × DoorSimulatorState × List DoorStatus) :=
  if s.is_sensor_blocking_close && s.autoretract then
    match direct_open_door n false (retract_clear s) with
    | none => none
    | some (s2, tr) => some (true, s2, tr)
  else some (false, s, [])

/-- A concrete state with the source's dataclass defaults (door closed, all
sensors enabled, autoretract on, no active detection, 85% battery on AC),
used by witnesses and counterexamples. -/
def witnessState : DoorSimulatorState :=
  { door_status := DoorStatus.closed
    power := true
    inside := true
    outside := true
    auto := true
    autoretract := true
    safety_lock := false
    cmd_lockout := false
    inside_sensor_active := false
    outside_sensor_active := false
    battery_percent := 85
    battery_present := true
    ac_present := true
    low_battery := true
    battery_config := ⟨0, 0, 60⟩
    timezone := "America/New_York"
    hold_time := 10
    sensor_trigger_voltage := 100
    sleep_sensor_trigger_voltage := 50
    total_open_cycles := 0
    total_auto_retracts := 0
    schedules := [] }

/-- Spec-side rendering of the schedule-gating sentence: a trigger is allowed
iff `auto` is off, or no schedules exist, or some entry is enabled, has the
current weekday's bit (converted as `(weekday + 1) % 7` into the [Sun..Sat]
mask), applies to the triggering sensor, and the current time lies in
[start, end) with a start > end window wrapping across midnight. -/
def schedule_gating_spec (s : DoorSimulatorState) (sensor : Sensor)
    (hour minute : Int) (weekday : Nat) : Prop :=
  s.auto = false ∨ s.schedules = [] ∨
  ∃ sched ∈ s.schedules.map Prod.snd,
    sched.enabled = true ∧
    sched.days_of_week.getD ((weekday + 1) % 7) 0 ≠ 0 ∧
    (sensor = Sensor.inside → sched.inside = true) ∧
    (sensor = Sensor.outside → sched.outside = true) ∧
    (let cur := hour * 60 + minute
     let st := sched.start_hour * 60 + sched.start_min
     let en := sched.end_hour * 60 + sched.end_min
     if st > en then st ≤ cur ∨ cur < en else st ≤ cur ∧ cur < en)

/-- Mutual exclusion of the two sensor detection flags (§3.2). -/
def sensors_mutually_exclusive (s : DoorSimulatorState) : Prop :=
  ¬ (s.inside_sensor_active = true ∧ s.outside_sensor_active = true)

/-- State at the end of a completed close: door closed, open-cycle counter
bumped. -/
def closedCycleState (s : DoorSimulatorState) : DoorSimulatorState :=
  { s with door_status := DoorStatus.closed
           total_open_cycles := s.total_open_cycles + 1 }

/-- State at the end of a close aborted by an auto-retract whose reversal
open cycle then runs to completion: sensors cleared, both counters
bumped, door closed again. -/
def retractFinalState (s : DoorSimulatorState) : DoorSimulatorState :=
  { s with door_status := DoorStatus.closed
           inside_sensor_active := false
           outside_sensor_active := false
           total_auto_retracts := s.total_auto_retracts + 1
           total_open_cycles := s.total_open_cycles + 1 }

/-- Concrete charging configuration: 50% battery, 1%/min charge rate with a
30 s tick, so one tick adds exactly half a percent. -/
def chargeCex : DoorSimulatorState :=
  { witnessState with battery_percent := 50, battery_config := ⟨1, 0, 30⟩ }

/-- Concrete schedule applying to neither sensor, with non-default times. -/
def schedNoSensorCex : Schedule :=
  ⟨0, true, [1, 1, 1, 1, 1, 1, 1], false, false, 8, 30, 20, 0⟩

/-- Concrete inside-sensor schedule for witnesses. -/
def schedInsideCex : Schedule :=
  ⟨0, true, [1, 0, 1, 0, 1, 0, 1], true, false, 6, 0, 22, 0⟩

/-- Concrete wire payload carrying a legacy `daysOfWeek` bitmask. -/
def maskDictCex : SchedDict :=
  { index := some 0
    enabled := some (EnabledVal.str "1")
    daysOfWeek := some (DaysVal.mask 85)
    inside := true
    outside := false
    inStartTime := some ⟨some 6, some 0⟩
    inEndTime := some ⟨some 22, some 0⟩
    outStartTime := some ⟨some 0, some 0⟩
    outEndTime := some ⟨some 0, some 0⟩ }

/-- Door held open with an active (enabled) inside sensor: the state from
which a close command runs into the blocking-sensor check. -/
def retractCexState : DoorSimulatorState :=
  { witnessState with door_status := DoorStatus.holding
                      inside_sensor_active := true }

/-!  ## Helper lemmas -/

theorem pyInt_natCast (h : Nat) : pyInt (h : ℚ) = h := by
  unfold pyInt
  rw [if_neg (not_lt.mpr (by positivity))]
  exact Int.floor_natCast h

theorem pyInt_nonneg {q : ℚ} (hq : 0 ≤ q) : 0 ≤ pyInt q := by
  unfold pyInt
  rw [if_neg (not_lt.mpr hq)]
  exact Int.floor_nonneg.mpr hq

theorem pyInt_le_of_le {q : ℚ} {c : Int} (hq : 0 ≤ q) (hc : q ≤ (c : ℚ)) :
    pyInt q ≤ c := by
  unfold pyInt
  rw [if_neg (not_lt.mpr hq)]
  have h2 := Int.floor_le_floor (α := ℚ) hc
  simpa using h2

theorem is_blocking_set_status (s : DoorSimulatorState) (x : DoorStatus) :
    ({ s with door_status := x } :
      DoorSimulatorState).is_sensor_blocking_close =
      s.is_sensor_blocking_close := rfl

theorem blocking_retract_clear (s : DoorSimulatorState) :
    (retract_clear s).is_sensor_blocking_close = false := by
  unfold retract_clear DoorSimulatorState.is_sensor_blocking_close
  cases hcl : s.cmd_lockout <;> simp

theorem is_sensor_allowed_iff (sch : Schedule) (sensor : Sensor)
    (hour minute : Int) (weekday : Nat) :
    sch.is_sensor_allowed sensor hour minute weekday = true ↔
      (sch.enabled = true ∧
       sch.days_of_week.getD ((weekday + 1) % 7) 0 ≠ 0 ∧
       (sensor = Sensor.inside → sch.inside = true) ∧
       (sensor = Sensor.outside → sch.outside = true) ∧
       (let cur := hour * 60 + minute
        let st := sch.start_hour * 60 + sch.start_min
        let en := sch.end_hour * 60 + sch.end_min
        if st > en then st ≤ cur ∨ cur < en else st ≤ cur ∧ cur < en)) := by
  unfold Schedule.is_sensor_allowed Schedule.is_day_active
  dsimp only
  by_cases hle : sch.start_hour * 60 + sch.start_min ≤
      sch.end_hour * 60 + sch.end_min
  · rw [if_neg (not_lt.mpr hle)]
    cases sensor <;>
      cases hin : sch.inside <;> cases hout : sch.outside <;>
      cases hen : sch.enabled <;>
      simp_all [Schedule.is_day_active]
  · rw [if_pos (not_le.mp hle)]
    cases sensor <;>
      cases hin : sch.inside <;> cases hout : sch.outside <;>
      cases hen : sch.enabled <;>
      simp_all [Schedule.is_day_active]

theorem battery_tick_range (s : DoorSimulatorState)
    (h0 : 0 ≤ s.battery_percent) (h100 : s.battery_percent ≤ 100)
    (hiv : 0 ≤ s.battery_config.update_interval) :
    0 ≤ (battery_simulation_tick s).1.battery_percent ∧
    (battery_simulation_tick s).1.battery_percent ≤ 100 := by
  have hQ0 : (0 : ℚ) ≤ (s.battery_percent : ℚ) := by exact_mod_cast h0
  have hQ100 : (s.battery_percent : ℚ) ≤ 100 := by exact_mod_cast h100
  have chargeB : ∀ r : ℚ, 0 ≤ r →
      0 ≤ pyInt (min 100 ((s.battery_percent : ℚ) +
        r * (s.battery_config.update_interval / 60))) ∧
      pyInt (min 100 ((s.battery_percent : ℚ) +
        r * (s.battery_config.update_interval / 60))) ≤ 100 := by
    intro r hr
    have hd : 0 ≤ r * (s.battery_config.update_interval / 60) := by positivity
    have hlo : (0 : ℚ) ≤ min 100 ((s.battery_percent : ℚ) +
        r * (s.battery_config.update_interval / 60)) :=
      le_min (by norm_num) (by linarith)
    exact ⟨pyInt_nonneg hlo,
      pyInt_le_of_le hlo (by exact_mod_cast min_le_left _ _)⟩
  have disB : ∀ r : ℚ, 0 ≤ r →
      0 ≤ pyInt (max 0 ((s.battery_percent : ℚ) -
        r * (s.battery_config.update_interval / 60))) ∧
      pyInt (max 0 ((s.battery_percent : ℚ) -
        r * (s.battery_config.update_interval / 60))) ≤ 100 := by
    intro r hr
    have hd : 0 ≤ r * (s.battery_config.update_interval / 60) := by positivity
    exact ⟨pyInt_nonneg (le_max_left 0 _),
      pyInt_le_of_le (le_max_left 0 _)
        (max_le (by norm_num) (by push_cast; linarith))⟩
  unfold battery_simulation_tick
  dsimp only
  split_ifs with h1 h2 h3 h4 h5
  · exact chargeB _ (le_of_lt h2.2)
  · exact ⟨h0, h100⟩
  · exact disB _ (le_of_lt h4.2)
  · exact ⟨h0, h100⟩
  · exact ⟨h0, h100⟩
  · exact ⟨h0, h100⟩

set_option maxHeartbeats 1600000 in
theorem motion_ignores_power (n : Nat) :
    (∀ hold s b, direct_open_door n hold (set_power b s) =
        (direct_open_door n hold s).map (fun p => (set_power b p.1, p.2))) ∧
    (∀ st sk s b, direct_close_door n st sk (set_power b s) =
        (direct_close_door n st sk s).map (fun p => (set_power b p.1, p.2))) := by
  induction n with
  | zero => exact ⟨fun _ _ _ => rfl, fun _ _ _ _ => rfl⟩
  | succ n ih =>
    obtain ⟨ihO, ihC⟩ := ih
    constructor
    · intro hold s b
      obtain ⟨ds, pw, ins, outs, au, ar, sl, cl, isa, osa, bp, bpres, ac, lb,
        bc, tz, ht, stv, sstv, toc, tar, sch⟩ := s
      have h2 := ihC DoorStatus.closingTopOpen false
        ⟨DoorStatus.holding, pw, ins, outs, au, ar, sl, cl, isa, osa, bp,
         bpres, ac, lb, bc, tz, ht, stv, sstv, toc, tar, sch⟩ b
      simp only [set_power] at h2 ⊢
      try dsimp only at h2
      cases ds <;> cases hold <;>
        (try (simp [direct_open_door,
          DoorSimulatorState.is_sensor_blocking_close])) <;>
        (try split_ifs) <;>
        simp_all [h2] <;>
        (try (cases hrec :
            direct_close_door n DoorStatus.closingTopOpen false _ <;>
          simp [hrec]))
    · intro st sk s b
      obtain ⟨ds, pw, ins, outs, au, ar, sl, cl, isa, osa, bp, bpres, ac, lb,
        bc, tz, ht, stv, sstv, toc, tar, sch⟩ := s
      have h3 := fun x => ihO false
        ⟨x, pw, ins, outs, au, ar, sl, cl, false, false, bp,
         bpres, ac, lb, bc, tz, ht, stv, sstv, toc, tar + 1, sch⟩ b
      simp only [set_power] at h3 ⊢
      try dsimp only at h3
      cases ds <;>
        (try (simp [direct_close_door,
          DoorSimulatorState.is_sensor_blocking_close, retract_clear])) <;>
        (try split_ifs) <;>
        simp_all [h3] <;>
        (try (cases hrec : direct_open_door n false _ <;> simp [hrec]))

/-!  ## C1: state-aware reversal -/

/-- C1: an open command in CLOSING_TOP_OPEN resumes at SLOWING (skipping
RISING) and proceeds through the rest of the open sequence; in
CLOSING_MID_OPEN it resumes at RISING; in RISING, SLOWING, HOLDING or
KEEPUP it is a no-op (no state change, no broadcast).  Symmetrically a
close command in RISING immediately enters CLOSING_MID_OPEN (skipping
CLOSING_TOP_OPEN), in SLOWING enters CLOSING_TOP_OPEN, and in CLOSED or
either CLOSING_* phase is a no-op.  The full-sequence parts are stated for
runs whose sensors do not block the close. -/
theorem state_aware_reversal (n : Nat) (hold : Bool) (s : DoorSimulatorState)
    (hnb : s.is_sensor_blocking_close = false) :
    ((s.door_status = DoorStatus.rising ∨ s.door_status = DoorStatus.slowing ∨
      s.door_status = DoorStatus.holding ∨ s.door_status = DoorStatus.keepup) →
      direct_open_door (n + 1) hold s = some (s, [])) ∧
    (s.door_status = DoorStatus.closingTopOpen →
      direct_open_door (n + 2) false s =
        some (closedCycleState s,
          [DoorStatus.slowing, DoorStatus.holding, DoorStatus.closingTopOpen,
           DoorStatus.closingMidOpen, DoorStatus.closed])) ∧
    (s.door_status = DoorStatus.closingMidOpen →
      direct_open_door (n + 2) false s =
        some (closedCycleState s,
          [DoorStatus.rising, DoorStatus.slowing, DoorStatus.holding,
           DoorStatus.closingTopOpen, DoorStatus.closingMidOpen,
           DoorStatus.closed])) ∧
    (s.door_status = DoorStatus.closingTopOpen →
      direct_open_door (n + 1) true s =
        some ({ s with door_status := DoorStatus.keepup },
          [DoorStatus.slowing, DoorStatus.keepup])) ∧
    (s.door_status = DoorStatus.closingMidOpen →
      direct_open_door (n + 1) true s =
        some ({ s with door_status := DoorStatus.keepup },
          [DoorStatus.rising, DoorStatus.slowing, DoorStatus.keepup])) ∧
    ((s.door_status = DoorStatus.closed ∨
      s.door_status = DoorStatus.closingTopOpen ∨
      s.door_status = DoorStatus.closingMidOpen) →
      direct_close_door (n + 1) DoorStatus.closingTopOpen false s =
        some (s, [])) ∧
    (s.door_status = DoorStatus.rising →
      direct_close_door (n + 1) DoorStatus.closingTopOpen false s =
        some (closedCycleState s,
          [DoorStatus.closingMidOpen, DoorStatus.closed])) ∧
    (s.door_status = DoorStatus.slowing →
      direct_close_door (n + 1) DoorStatus.closingTopOpen false s =
        some (closedCycleState s,
          [DoorStatus.closingTopOpen, DoorStatus.closingMidOpen,
           DoorStatus.closed])) := by
  refine ⟨?_, ?_, ?_, ?_, ?_, ?_, ?_, ?_⟩
  · rintro (h | h | h | h) <;>
      simp [direct_open_door, h]
  · intro h
    simp [direct_open_door, direct_close_door, h, is_blocking_set_status, hnb,
      closedCycleState]
  · intro h
    simp [direct_open_door, direct_close_door, h, is_blocking_set_status, hnb,
      closedCycleState]
  · intro h
    simp [direct_open_door, h]
  · intro h
    simp [direct_open_door, h]
  · rintro (h | h | h) <;> simp [direct_close_door, h]
  · intro h
    simp [direct_close_door, h, is_blocking_set_status, hnb, closedCycleState]
  · intro h
    simp [direct_close_door, h, is_blocking_set_status, hnb, closedCycleState]

/-- Witness for `state_aware_reversal`: from CLOSING_TOP_OPEN with idle
sensors the open command yields exactly the SLOWING-first sequence. -/
theorem state_aware_reversal_witness :
    direct_open_door 2 false
      { witnessState with door_status := DoorStatus.closingTopOpen } =
      some (closedCycleState
          { witnessState with door_status := DoorStatus.closingTopOpen },
        [DoorStatus.slowing, DoorStatus.holding, DoorStatus.closingTopOpen,
         DoorStatus.closingMidOpen, DoorStatus.closed]) :=
  (state_aware_reversal 0 false
    { witnessState with door_status := DoorStatus.closingTopOpen } rfl).2.1 rfl

/-!  ## C2: auto-retract -/

set_option maxHeartbeats 1600000 in
/-- C2 (amended): when the blocking check after a phase timer of
`_direct_close_door` finds a blocking sensor with `autoretract` on, the
close is aborted, `total_auto_retracts` is bumped by exactly one, both
sensor-active flags are cleared, and the door reverses into a non-hold open
cycle — resuming at SLOWING when the check follows the CLOSING_TOP_OPEN
timer (door still at the top) and at RISING when it follows the
CLOSING_MID_OPEN timer of a close entered from RISING. -/
theorem auto_retract (n : Nat) (s : DoorSimulatorState)
    (hb : s.is_sensor_blocking_close = true) (har : s.autoretract = true) :
    ((s.door_status = DoorStatus.holding ∨ s.door_status = DoorStatus.keepup) →
      direct_close_door (n + 3) DoorStatus.closingTopOpen false s =
        some (retractFinalState s,
          [DoorStatus.closingTopOpen, DoorStatus.slowing, DoorStatus.holding,
           DoorStatus.closingTopOpen, DoorStatus.closingMidOpen,
           DoorStatus.closed])) ∧
    (s.door_status = DoorStatus.rising →
      direct_close_door (n + 3) DoorStatus.closingTopOpen false s =
        some (retractFinalState s,
          [DoorStatus.closingMidOpen, DoorStatus.rising, DoorStatus.slowing,
           DoorStatus.holding, DoorStatus.closingTopOpen,
           DoorStatus.closingMidOpen, DoorStatus.closed])) ∧
    (retractFinalState s).total_auto_retracts = s.total_auto_retracts + 1 ∧
    (retractFinalState s).inside_sensor_active = false ∧
    (retractFinalState s).outside_sensor_active = false ∧
    (retractFinalState s).door_status = DoorStatus.closed := by
  obtain ⟨ds, pw, ins, outs, au, ar, sl, cl, isa, osa, bp, bpres, ac, lb,
    bc, tz, ht, stv, sstv, toc, tar, sch⟩ := s
  simp only [DoorSimulatorState.is_sensor_blocking_close] at hb
  subst har
  refine ⟨?_, ?_, rfl, rfl, rfl, rfl⟩
  · rintro (h | h) <;> subst h <;>
      simp [direct_close_door, direct_open_door,
        DoorSimulatorState.is_sensor_blocking_close, retract_clear,
        retractFinalState, hb]
  · intro h
    subst h
    simp [direct_close_door, direct_open_door,
      DoorSimulatorState.is_sensor_blocking_close, retract_clear,
      retractFinalState, hb]

/-- Witness for `auto_retract`: door held open with the enabled inside
sensor active; the close aborts and reverses. -/
theorem auto_retract_witness :
    direct_close_door 3 DoorStatus.closingTopOpen false retractCexState =
      some (retractFinalState retractCexState,
        [DoorStatus.closingTopOpen, DoorStatus.slowing, DoorStatus.holding,
         DoorStatus.closingTopOpen, DoorStatus.closingMidOpen,
         DoorStatus.closed]) :=
  (auto_retract 0 retractCexState rfl rfl).1 (Or.inl rfl)

/-- Counterexample for C2 as stated: with the retract fired by the check
after the CLOSING_TOP_OPEN timer, the reversal open cycle resumes at
SLOWING — the broadcast sequence of the whole run contains no RISING at
all, against the claim that the open cycle starts at RISING.  The run does
perform exactly one auto-retract. -/
theorem auto_retract_counterexample :
    (direct_close_door 6 DoorStatus.closingTopOpen false
        retractCexState).map (fun p => p.2) =
      some [DoorStatus.closingTopOpen, DoorStatus.slowing, DoorStatus.holding,
        DoorStatus.closingTopOpen, DoorStatus.closingMidOpen,
        DoorStatus.closed] ∧
    (direct_close_door 6 DoorStatus.closingTopOpen false
        retractCexState).map (fun p => p.1.total_auto_retracts) = some 1 ∧
    DoorStatus.rising ∉
      [DoorStatus.closingTopOpen, DoorStatus.slowing, DoorStatus.holding,
       DoorStatus.closingTopOpen, DoorStatus.closingMidOpen,
       DoorStatus.closed] :=
  ⟨rfl, rfl, by decide⟩

/-!  ## C3: schedule gating -/

/-- C3: a sensor trigger passes the schedule gate exactly when `auto` is
off, or no schedules exist, or some schedule entry is simultaneously
enabled, has the current local weekday's bit set (Mon=0 weekday converted
as `(weekday + 1) % 7` into the [Sun..Sat] mask), applies to the triggering
sensor, and contains the current local time in its [start, end) window,
wrapping across midnight when start > end. -/
theorem schedule_gating (s : DoorSimulatorState) (sensor : Sensor)
    (hour minute : Int) (weekday : Nat) :
    s.is_sensor_allowed_by_schedule sensor hour minute weekday = true ↔
      schedule_gating_spec s sensor hour minute weekday := by
  unfold DoorSimulatorState.is_sensor_allowed_by_schedule schedule_gating_spec
  by_cases hauto : s.auto = true
  · by_cases hempty : s.schedules = []
    · simp [hauto, hempty]
    · rw [if_neg (by simp [hauto]), if_neg hempty, List.any_eq_true]
      constructor
      · rintro ⟨sched, hmem, hallow⟩
        exact Or.inr (Or.inr ⟨sched, hmem,
          (is_sensor_allowed_iff _ _ _ _ _).mp hallow⟩)
      · rintro (h | h | ⟨sched, hmem, hconj⟩)
        · rw [hauto] at h; simp at h
        · exact absurd h hempty
        · exact ⟨sched, hmem, (is_sensor_allowed_iff _ _ _ _ _).mpr hconj⟩
  · have hfalse : s.auto = false := by simpa using hauto
    simp [hfalse]

/-!  ## C4: battery tick -/

/-- C4 (amended): on a tick with the battery present — charging
(`ac_present`, positive charge rate): the broadcast fires exactly when the
exact rational `min(100, percent + delta)` differs from the stored percent,
even when the integer part is unchanged, and the stored percent becomes
the truncation of that value; discharging (no AC, positive discharge
rate): the broadcast fires exactly when the truncated
`max(0, percent − delta)` differs from the stored integer percent, and the
dedicated low-battery notification fires exactly when the value crosses
the threshold 20 downward and `low_battery` notifications are enabled. -/
theorem battery_tick (s : DoorSimulatorState)
    (hbp : s.battery_present = true) :
    (s.ac_present = true → s.battery_config.charge_rate > 0 →
      (((battery_simulation_tick s).2.1 = true ↔
          min 100 ((s.battery_percent : ℚ) +
            s.battery_config.charge_rate *
              (s.battery_config.update_interval / 60)) ≠
            (s.battery_percent : ℚ)) ∧
       (battery_simulation_tick s).1.battery_percent =
         (if min 100 ((s.battery_percent : ℚ) +
              s.battery_config.charge_rate *
                (s.battery_config.update_interval / 60)) =
              (s.battery_percent : ℚ) then s.battery_percent
          else pyInt (min 100 ((s.battery_percent : ℚ) +
            s.battery_config.charge_rate *
              (s.battery_config.update_interval / 60)))) ∧
       (battery_simulation_tick s).2.2 = false)) ∧
    (s.ac_present = false → s.battery_config.discharge_rate > 0 →
      (((battery_simulation_tick s).2.1 = true ↔
          pyInt (max 0 ((s.battery_percent : ℚ) -
            s.battery_config.discharge_rate *
              (s.battery_config.update_interval / 60))) ≠ s.battery_percent) ∧
       (battery_simulation_tick s).1.battery_percent =
         (if pyInt (max 0 ((s.battery_percent : ℚ) -
              s.battery_config.discharge_rate *
                (s.battery_config.update_interval / 60))) = s.battery_percent
          then s.battery_percent
          else pyInt (max 0 ((s.battery_percent : ℚ) -
            s.battery_config.discharge_rate *
              (s.battery_config.update_interval / 60)))) ∧
       ((battery_simulation_tick s).2.2 = true ↔
          (s.battery_percent > 20 ∧
           pyInt (max 0 ((s.battery_percent : ℚ) -
             s.battery_config.discharge_rate *
               (s.battery_config.update_interval / 60))) ≤ 20 ∧
           s.low_battery = true)))) := by
  constructor
  · intro hac hcr
    unfold battery_simulation_tick
    rw [if_neg (by simp [hbp]), if_pos ⟨hac, hcr⟩]
    by_cases hch : min 100 ((s.battery_percent : ℚ) +
        s.battery_config.charge_rate *
          (s.battery_config.update_interval / 60)) = (s.battery_percent : ℚ)
    · rw [if_neg (by simpa using hch)]
      simp [hch]
    · rw [if_pos hch]
      simp [hch]
  · intro hac hdr
    unfold battery_simulation_tick
    rw [if_neg (by simp [hbp]), if_neg (by simp [hac]),
      if_pos ⟨by simp [hac], hdr⟩]
    by_cases hch : pyInt (max 0 ((s.battery_percent : ℚ) -
        s.battery_config.discharge_rate *
          (s.battery_config.update_interval / 60))) = s.battery_percent
    · rw [if_neg (by simpa using hch)]
      refine ⟨by simp [hch], by simp [hch], ?_⟩
      refine iff_of_false (by simp) ?_
      rintro ⟨hgt, hle, -⟩
      omega
    · rw [if_pos hch]
      refine ⟨by simp [hch], by simp [hch], ?_⟩
      simp [Bool.and_eq_true, decide_eq_true_eq, and_assoc]

/-- Witness for `battery_tick` at the concrete charging state. -/
theorem battery_tick_witness :
    (chargeCex.ac_present = true → chargeCex.battery_config.charge_rate > 0 →
      (((battery_simulation_tick chargeCex).2.1 = true ↔
          min 100 ((chargeCex.battery_percent : ℚ) +
            chargeCex.battery_config.charge_rate *
              (chargeCex.battery_config.update_interval / 60)) ≠
            (chargeCex.battery_percent : ℚ)) ∧
       (battery_simulation_tick chargeCex).1.battery_percent =
         (if min 100 ((chargeCex.battery_percent : ℚ) +
              chargeCex.battery_config.charge_rate *
                (chargeCex.battery_config.update_interval / 60)) =
              (chargeCex.battery_percent : ℚ) then chargeCex.battery_percent
          else pyInt (min 100 ((chargeCex.battery_percent : ℚ) +
            chargeCex.battery_config.charge_rate *
              (chargeCex.battery_config.update_interval / 60)))) ∧
       (battery_simulation_tick chargeCex).2.2 = false)) ∧
    (chargeCex.ac_present = false →
      chargeCex.battery_config.discharge_rate > 0 →
      (((battery_simulation_tick chargeCex).2.1 = true ↔
          pyInt (max 0 ((chargeCex.battery_percent : ℚ) -
            chargeCex.battery_config.discharge_rate *
              (chargeCex.battery_config.update_interval / 60))) ≠
            chargeCex.battery_percent) ∧
       (battery_simulation_tick chargeCex).1.battery_percent =
         (if pyInt (max 0 ((chargeCex.battery_percent : ℚ) -
              chargeCex.battery_config.discharge_rate *
                (chargeCex.battery_config.update_interval / 60))) =
              chargeCex.battery_percent
          then chargeCex.battery_percent
          else pyInt (max 0 ((chargeCex.battery_percent : ℚ) -
            chargeCex.battery_config.discharge_rate *
              (chargeCex.battery_config.update_interval / 60)))) ∧
       ((battery_simulation_tick chargeCex).2.2 = true ↔
          (chargeCex.battery_percent > 20 ∧
           pyInt (max 0 ((chargeCex.battery_percent : ℚ) -
             chargeCex.battery_config.discharge_rate *
               (chargeCex.battery_config.update_interval / 60))) ≤ 20 ∧
           chargeCex.low_battery = true)))) :=
  battery_tick chargeCex rfl

/-- Counterexample for C4 as stated: at 50% with a 1%/min charge rate and a
30 s tick the exact new value is 50.5, so a battery broadcast is emitted
although the integer percent does not change (it stays 50 — the claim says
a broadcast happens only if the integer part changed). -/
theorem battery_tick_counterexample :
    (battery_simulation_tick chargeCex).2.1 = true ∧
    (battery_simulation_tick chargeCex).1.battery_percent =
      chargeCex.battery_percent := by
  have hpy : pyInt (101/2 : ℚ) = 50 := by
    unfold pyInt
    rw [if_neg (by norm_num)]
    rw [Int.floor_eq_iff]
    norm_num
  have hmin : min (100 : ℚ) (((50:Int) : ℚ) + 1 * (30/60)) = 101/2 := by
    rw [min_eq_right]
    norm_num
    norm_num
  unfold battery_simulation_tick chargeCex witnessState
  dsimp only
  rw [if_neg (by norm_num), if_pos (⟨rfl, by norm_num⟩ :
    (true = true) ∧ (1:ℚ) > 0)]
  rw [if_pos (by rw [hmin]; norm_num)]
  refine ⟨rfl, ?_⟩
  dsimp only
  rw [hmin, hpy]

/-!  ## C5: sensor mutual exclusion -/

/-- C5 (amended): `activate_sensor` (toggle or pulse) and
`set_pet_in_doorway` leave at most one sensor-active flag set
unconditionally; `trigger_sensor` does not touch the flags at all; and
`simulate_obstruction` — which only sets `inside_sensor_active` — preserves
mutual exclusion exactly when `outside_sensor_active` is not already
set. -/
theorem sensor_mutual_exclusion (s : DoorSimulatorState) (sensor : Sensor)
    (dz present : Bool) (hour minute : Int) (weekday : Nat) :
    sensors_mutually_exclusive (activate_sensor sensor dz s) ∧
    sensors_mutually_exclusive (set_pet_in_doorway present s) ∧
    (direct_trigger_sensor sensor hour minute weekday s).1 = s ∧
    (s.outside_sensor_active = false →
      sensors_mutually_exclusive (simulate_obstruction s)) := by
  refine ⟨?_, ?_, ?_, ?_⟩
  · cases sensor <;> cases dz <;>
      simp [activate_sensor, sensors_mutually_exclusive]
  · cases present <;> simp [set_pet_in_doorway, sensors_mutually_exclusive]
  · unfold direct_trigger_sensor
    split_ifs <;> rfl
  · intro hout
    simp [simulate_obstruction, sensors_mutually_exclusive, hout]

/-- Witness for `sensor_mutual_exclusion` at the default state, with the
obstruction conjunct's hypothesis discharged there. -/
theorem sensor_mutual_exclusion_witness :
    sensors_mutually_exclusive
      (activate_sensor Sensor.inside true witnessState) ∧
    sensors_mutually_exclusive (set_pet_in_doorway true witnessState) ∧
    (direct_trigger_sensor Sensor.inside 10 0 0 witnessState).1 =
      witnessState ∧
    sensors_mutually_exclusive (simulate_obstruction witnessState) :=
  have h := sensor_mutual_exclusion witnessState Sensor.inside true true 10 0 0
  ⟨h.1, h.2.1, h.2.2.1, h.2.2.2 rfl⟩

/-- Counterexample for C5 as stated: toggle the outside sensor on (a
sensor operation that leaves only `outside_sensor_active` set), then call
`simulate_obstruction`; afterwards both sensor-active flags are true. -/
theorem sensor_mutual_exclusion_counterexample :
    (simulate_obstruction
      (activate_sensor Sensor.outside true witnessState)).inside_sensor_active
        = true ∧
    (simulate_obstruction
      (activate_sensor Sensor.outside true witnessState)).outside_sensor_active
        = true :=
  ⟨rfl, rfl⟩

/-!  ## C6: deleting a missing schedule index -/

/-- C6 (amended): deleting an index that is not in the schedule map leaves
the map unchanged; the simulator-level `remove_schedule` is a silent no-op
(no deletion broadcast), while the control-channel `schedule delete`
command reports failure ("Schedule #N not found") rather than success. -/
theorem schedule_delete_missing (idx : Int) (s : DoorSimulatorState)
    (h : s.schedules.lookup idx = none) :
    remove_schedule idx s = (s, false) ∧
    (schedule_delete idx s).1 = s ∧
    (schedule_delete idx s).2.success = false := by
  unfold remove_schedule schedule_delete
  simp [h]

/-- Witness for `schedule_delete_missing` on the empty schedule map. -/
theorem schedule_delete_missing_witness :
    remove_schedule 0 witnessState = (witnessState, false) ∧
    (schedule_delete 0 witnessState).1 = witnessState ∧
    (schedule_delete 0 witnessState).2.success = false :=
  schedule_delete_missing 0 witnessState rfl

/-- Counterexample for C6 as stated: deleting index 0 from the empty map
leaves the state unchanged but the delete command does NOT report
success. -/
theorem schedule_delete_counterexample :
    (schedule_delete 0 witnessState).1 = witnessState ∧
    ¬ ((schedule_delete 0 witnessState).2.success = true) :=
  ⟨rfl, by decide⟩

/-!  ## C8: schedule round trip -/

/-- C8 (amended): `Schedule.from_dict (s.to_dict) = s` for every schedule
that applies to at least one sensor (when neither the inside nor the
outside flag is set, `from_dict` falls back to the default 6:00–22:00
window and the times are lost); and a legacy integer `daysOfWeek` bitmask
`b` is normalized to the 7-element list whose i-th entry is
`b / 2 ^ i % 2`, i.e. bit i counted from Sun=0. -/
theorem schedule_round_trip (s : Schedule) (b : Nat) (d : SchedDict)
    (hsel : s.inside = true ∨ s.outside = true)
    (hmask : d.daysOfWeek = some (DaysVal.mask b)) :
    Schedule.from_dict (Schedule.to_dict s) = s ∧
    (Schedule.from_dict d).days_of_week =
      (List.range 7).map (fun i => b / 2 ^ i % 2) := by
  constructor
  · obtain ⟨idx, en, days, ins, outs, sh, sm, eh, em⟩ := s
    unfold Schedule.to_dict Schedule.from_dict
    cases en <;> cases ins <;> cases outs <;> simp_all
  · unfold Schedule.from_dict
    rw [hmask]
    simp [Nat.shiftRight_eq_div_pow, Nat.and_one_is_mod]

/-- Witness for `schedule_round_trip` at a concrete inside-sensor schedule
and a concrete bitmask payload (mask 85 = Sun, Tue, Thu, Sat). -/
theorem schedule_round_trip_witness :
    Schedule.from_dict (Schedule.to_dict schedInsideCex) = schedInsideCex ∧
    (Schedule.from_dict maskDictCex).days_of_week =
      (List.range 7).map (fun i => 85 / 2 ^ i % 2) :=
  schedule_round_trip schedInsideCex 85 maskDictCex (Or.inl rfl) rfl

/-- Counterexample for C8 as stated: a schedule with neither sensor flag
set and a non-default window (8:30–20:00) does not survive the round trip
(`from_dict` resets its window to the 6:00–22:00 defaults). -/
theorem schedule_round_trip_counterexample :
    Schedule.from_dict (Schedule.to_dict schedNoSensorCex) ≠
      schedNoSensorCex := by
  decide

/-!  ## C10: set_power frame and in-flight motion -/

/-- C10 (amended): `set_power` mutates exactly the power flag, and the
motion routines never consult the power flag — a run started in any phase
produces the same broadcasts and the same state changes with power
toggled, so an in-flight motion continues through its remaining phases to
completion after `set_power(False)`.  (`cmd_lockout`, by contrast, is read
mid-motion through the blocking-sensor predicate; see the
counterexample.) -/
theorem set_power_frame (b : Bool) (s : DoorSimulatorState) (n : Nat) :
    (set_power b s).power = b ∧
    (set_power b s).door_status = s.door_status ∧
    (set_power b s).inside = s.inside ∧
    (set_power b s).outside = s.outside ∧
    (set_power b s).auto = s.auto ∧
    (set_power b s).autoretract = s.autoretract ∧
    (set_power b s).safety_lock = s.safety_lock ∧
    (set_power b s).cmd_lockout = s.cmd_lockout ∧
    (set_power b s).inside_sensor_active = s.inside_sensor_active ∧
    (set_power b s).outside_sensor_active = s.outside_sensor_active ∧
    (set_power b s).battery_percent = s.battery_percent ∧
    (set_power b s).battery_present = s.battery_present ∧
    (set_power b s).ac_present = s.ac_present ∧
    (set_power b s).low_battery = s.low_battery ∧
    (set_power b s).battery_config = s.battery_config ∧
    (set_power b s).timezone = s.timezone ∧
    (set_power b s).hold_time = s.hold_time ∧
    (set_power b s).sensor_trigger_voltage = s.sensor_trigger_voltage ∧
    (set_power b s).sleep_sensor_trigger_voltage =
      s.sleep_sensor_trigger_voltage ∧
    (set_power b s).total_open_cycles = s.total_open_cycles ∧
    (set_power b s).total_auto_retracts = s.total_auto_retracts ∧
    (set_power b s).schedules = s.schedules ∧
    (∀ hold, direct_open_door n hold (set_power b s) =
      (direct_open_door n hold s).map (fun p => (set_power b p.1, p.2))) ∧
    (∀ st sk, direct_close_door n st sk (set_power b s) =
      (direct_close_door n st sk s).map (fun p => (set_power b p.1, p.2))) :=
  ⟨rfl, rfl, rfl, rfl, rfl, rfl, rfl, rfl, rfl, rfl, rfl, rfl, rfl, rfl,
   rfl, rfl, rfl, rfl, rfl, rfl, rfl, rfl,
   fun hold => (motion_ignores_power n).1 hold s b,
   fun st sk => (motion_ignores_power n).2 st sk s b⟩

/-- Counterexample for C10 as stated ("power and cmd_lockout are checked
only when a command or sensor trigger is accepted, never during an
in-flight motion sequence"): two states identical except for
`cmd_lockout`, both with the door HOLDING and the enabled inside sensor
active, produce different motion from the same close call — with lockout
the close completes directly, without it the blocking check fires an
auto-retract — so `cmd_lockout` is consulted during in-flight motion. -/
theorem set_power_frame_counterexample :
    (direct_close_door 6 DoorStatus.closingTopOpen false
        { retractCexState with cmd_lockout := true }).map (fun p => p.2) =
      some [DoorStatus.closingTopOpen, DoorStatus.closingMidOpen,
        DoorStatus.closed] ∧
    (direct_close_door 6 DoorStatus.closingTopOpen false
        retractCexState).map (fun p => p.2) =
      some [DoorStatus.closingTopOpen, DoorStatus.slowing,
        DoorStatus.holding, DoorStatus.closingTopOpen,
        DoorStatus.closingMidOpen, DoorStatus.closed] ∧
    ([DoorStatus.closingTopOpen, DoorStatus.closingMidOpen,
        DoorStatus.closed] : List DoorStatus) ≠
      [DoorStatus.closingTopOpen, DoorStatus.slowing, DoorStatus.holding,
       DoorStatus.closingTopOpen, DoorStatus.closingMidOpen,
       DoorStatus.closed] :=
  ⟨rfl, rfl, by decide⟩

/-!  ## C7: hold-time round trip -/

/-- C7: setting the hold time to any centisecond integer `h` stores `h/100`
seconds in internal state, and immediately afterwards the dedicated
hold-time getter, the hold-time field of the wire settings report, and the
hold-time broadcast all carry exactly `h` centiseconds. -/
theorem hold_time_round_trip (h : Nat) (s : DoorSimulatorState) :
    (set_hold_time_cmd h s).hold_time = (h : ℚ) / 100 ∧
    get_hold_time_cmd (set_hold_time_cmd h s) = h ∧
    wire_settings_hold_time (set_hold_time_cmd h s) = h ∧
    broadcast_hold_time_value (set_hold_time_cmd h s) = h := by
  have key : pyInt ((h : ℚ) / 100 * 100) = h := by
    rw [div_mul_cancel₀ (h : ℚ) (by norm_num)]
    exact pyInt_natCast h
  refine ⟨rfl, ?_, ?_, ?_⟩ <;>
    simpa [get_hold_time_cmd, wire_settings_hold_time,
      broadcast_hold_time_value, set_hold_time_cmd] using key

/-!  ## C9: battery clamp invariant -/

/-- C9: `set_battery p` stores exactly `max 0 (min 100 p)`, which always
lies in [0, 100]; and a battery tick keeps the percent within [0, 100]
whenever it was in range before (for a nonnegative configured update
interval). -/
theorem battery_clamp_invariant (p : Int) (s : DoorSimulatorState)
    (h0 : 0 ≤ s.battery_percent) (h100 : s.battery_percent ≤ 100)
    (hiv : 0 ≤ s.battery_config.update_interval) :
    (set_battery p s).1.battery_percent = max 0 (min 100 p) ∧
    0 ≤ (set_battery p s).1.battery_percent ∧
    (set_battery p s).1.battery_percent ≤ 100 ∧
    0 ≤ (battery_simulation_tick s).1.battery_percent ∧
    (battery_simulation_tick s).1.battery_percent ≤ 100 := by
  obtain ⟨ht0, ht100⟩ := battery_tick_range s h0 h100 hiv
  refine ⟨rfl, le_max_left 0 _, ?_, ht0, ht100⟩
  simp only [set_battery]
  omega

/-- Witness for `battery_clamp_invariant` at the default state. -/
theorem battery_clamp_invariant_witness :
    (set_battery 150 witnessState).1.battery_percent = max 0 (min 100 150) ∧
    0 ≤ (set_battery 150 witnessState).1.battery_percent ∧
    (set_battery 150 witnessState).1.battery_percent ≤ 100 ∧
    0 ≤ (battery_simulation_tick witnessState).1.battery_percent ∧
    (battery_simulation_tick witnessState).1.battery_percent ≤ 100 :=
  battery_clamp_invariant 150 witnessState (by decide) (by decide) (by decide)

end PowerPetDoor
